import Mathlib

/-!
Verification development for the SmartHealth-Bot AI model service
(`ai-model/app.py`).  The Python source is shallowly embedded: strings are
Lean `String`s manipulated at the `Char`-list level, Python floats are
modelled exactly as rationals (`ℚ`), the scikit-learn classifier is an
abstract function argument, and the Flask route `predict` becomes a pure
function from the read-only model context plus the request payload to a
response value (the route never writes any module-level state, so the
embedding is a pure reader).

The file follows `app.py` as committed, which contains an unresolved merge:
both sides of the conflict are embedded where the specification refers to
them (`map_natural_language_symptoms` from the `2e6afe8` side,
`enhance_symptom_matching` from the `HEAD` side).
-/

set_option maxRecDepth 8000

namespace SmartHealth

/-! ## Python string primitives (ASCII data, as in the CSV datasets) -/

/-- Characters removed by Python `str.strip()` (ASCII whitespace). -/
def isPySpace (c : Char) : Bool :=
  decide (c.toNat = 32 ∨ c.toNat = 9 ∨ c.toNat = 10 ∨ c.toNat = 13 ∨
          c.toNat = 11 ∨ c.toNat = 12)

/-- Python `str.lower()` on the ASCII data appearing in the datasets;
`Char.toLower` lowers exactly the ASCII uppercase range. -/
def pyLower (s : String) : String :=
  ⟨s.data.map Char.toLower⟩

/-- Remove a leading run of `p`-characters and then a trailing run. -/
def stripList (p : Char → Bool) (l : List Char) : List Char :=
  ((l.dropWhile p).reverse.dropWhile p).reverse

/-- Python `str.strip()`. -/
def pyStrip (s : String) : String :=
  ⟨stripList isPySpace s.data⟩

/-- Python `str.replace(" ", "_")` (single-character replacement). -/
def underscoreSpaces (s : String) : String :=
  ⟨s.data.map (fun c => if c = ' ' then '_' else c)⟩

/-- Python `str.replace("_", " ")`. -/
def spaceUnderscores (s : String) : String :=
  ⟨s.data.map (fun c => if c = '_' then ' ' else c)⟩

/-- Function `clean_symptom` of app.py: `str(s).strip().lower().replace(" ", "_")`. -/
def cleanSymptom (s : String) : String :=
  underscoreSpaces (pyLower (pyStrip s))

/-- Python substring test `needle in hay`. -/
def subStringOf (needle hay : String) : Bool :=
  hay.data.tails.any (fun t => needle.data.isPrefixOf t)

/-- Delimiters of the regex `[,;.\n\r]+` used by `map_natural_language_symptoms`. -/
def isClauseDelim (c : Char) : Bool :=
  c = ',' || c = ';' || c = '.' || c = '\n' || c = '\r'

/-- Model of `re.split(r"[,;.\n\r]+", s)`: split on maximal delimiter runs,
keeping the (possibly empty) boundary segments, exactly as `re.split` does. -/
def splitDelimRuns (s : String) : List String :=
  let st := s.data.foldl
    (fun (acc : List (List Char) × List Char × Bool) c =>
      if isClauseDelim c then
        if acc.2.2 then acc
        else (acc.2.1.reverse :: acc.1, [], true)
      else (acc.1, c :: acc.2.1, false))
    ([], [], false)
  ((st.2.1.reverse :: st.1).reverse).map (fun cs => (⟨cs⟩ : String))

/-- Helper for Python `str.split()` (whitespace split, empties dropped). -/
def splitWsAux : List Char → List Char → List (List Char)
  | [], cur => if cur.isEmpty then [] else [cur.reverse]
  | c :: cs, cur =>
    if isPySpace c then
      if cur.isEmpty then splitWsAux cs [] else cur.reverse :: splitWsAux cs []
    else splitWsAux cs (c :: cur)

/-- Python `str.split()` with no argument. -/
def pySplitWs (s : String) : List String :=
  (splitWsAux s.data []).map (fun cs => (⟨cs⟩ : String))

/-! ## The synonym tables (inline dict literals of app.py, insertion order) -/

/-- Global `SYMPTOM_SYNONYMS` dict of app.py (used by `map_natural_language_symptoms`). -/
def SYMPTOM_SYNONYMS : List (String × List String) := [
  ("fever", ["high temperature", "temperature", "hot", "burning up", "pyrexia"]),
  ("headache", ["head pain", "migraine", "head ache", "cranial pain"]),
  ("cough", ["coughing", "hack", "throat clearing"]),
  ("fatigue", ["tired", "exhausted", "weakness", "weak", "lethargy", "drowsy"]),
  ("nausea", ["sick", "queasy", "feel sick", "stomach upset"]),
  ("vomiting", ["throwing up", "puking", "being sick", "retching"]),
  ("diarrhea", ["loose stools", "runny stomach", "upset stomach"]),
  ("abdominal_pain", ["stomach pain", "belly pain", "tummy ache", "stomach ache"]),
  ("chest_pain", ["chest ache", "heart pain", "chest discomfort"]),
  ("back_pain", ["backache", "spine pain", "lower back pain"]),
  ("joint_pain", ["arthritis", "aching joints", "stiff joints"]),
  ("muscle_pain", ["muscle ache", "sore muscles", "muscle soreness"]),
  ("shortness_of_breath", ["difficulty breathing", "breathless", "cant breathe"]),
  ("dizziness", ["dizzy", "lightheaded", "spinning sensation"]),
  ("skin_rash", ["rash", "skin irritation", "red skin", "skin problem"]),
  ("sore_throat", ["throat pain", "painful throat", "throat ache"]),
  ("runny_nose", ["blocked nose", "stuffy nose", "nasal congestion"]),
  ("loss_of_appetite", ["no appetite", "dont want to eat", "not hungry"]),
  ("weight_loss", ["losing weight", "getting thinner", "weight dropping"]),
  ("anxiety", ["worried", "anxious", "nervous", "panic", "stress"]),
  ("depression", ["sad", "low mood", "depressed", "down"]),
  ("insomnia", ["cant sleep", "sleepless", "trouble sleeping"]),
  ("constipation", ["blocked up", "cant poop", "hard stools"]),
  ("frequent_urination", ["peeing a lot", "urinating often", "bathroom often"]),
  ("blurred_vision", ["vision problems", "cant see clearly", "fuzzy vision"]),
  ("sweating", ["excessive sweating", "perspiring", "night sweats"]),
  ("chills", ["cold shivers", "shivering", "feeling cold"]),
  ("swollen_lymph_nodes", ["swollen glands", "enlarged glands"])]

/-! ## difflib model (`get_close_matches` with `n = 1`)

`SequenceMatcher` is instantiated with no junk predicate and the `word`
argument (sequence `b`) is far below the autojunk threshold of 200
characters, so `find_longest_match` is exactly the textbook longest
matching block dynamic program, and `ratio() = 2 * M / T` where `M` is the
total size of the matching blocks and `T` the combined length.  The two
quick ratios computed by `get_close_matches` are upper bounds of `ratio()`,
so the three-fold cutoff test is equivalent to `ratio() >= cutoff`. -/

/-- Positions (ascending) of character `c` in `b` (difflib `b2j`). -/
def charPositions (b : List Char) (c : Char) : List Nat :=
  (List.range b.length).filter (fun j => b.getD j ' ' = c)

/-- Lookup in an association list of `(index, runLength)`, defaulting to 0. -/
def lookupD (m : List (Nat × Nat)) (k : Nat) : Nat :=
  match m.find? (fun p => p.1 = k) with
  | some p => p.2
  | none => 0

/-- difflib `SequenceMatcher.find_longest_match` on `a[alo:ahi]` and
`b[blo:bhi]` without junk: returns `(besti, bestj, bestsize)`, preferring
earlier `i` then earlier `j` exactly as the Python loop does. -/
def findLongestMatch (a b : List Char) (alo ahi blo bhi : Nat) : Nat × Nat × Nat :=
  let idxs := (List.range (ahi - alo)).map (fun d => d + alo)
  (idxs.foldl
    (fun (st : List (Nat × Nat) × (Nat × Nat × Nat)) i =>
      let js := (charPositions b (a.getD i ' ')).filter (fun j => decide (blo ≤ j) && decide (j < bhi))
      js.foldl
        (fun (st2 : List (Nat × Nat) × (Nat × Nat × Nat)) j =>
          let k := (if j = 0 then 0 else lookupD st.1 (j - 1)) + 1
          let best := if k > st2.2.2.2 then (i + 1 - k, j + 1 - k, k) else st2.2
          ((j, k) :: st2.1, best))
        ([], st.2))
    ([], (alo, blo, 0))).2

/-- Total size of all matching blocks (difflib `get_matching_blocks`,
summed); the recursion splits at the longest match, with fuel bounding the
recursion depth (one unit per strict shrink of `a`-range, so
`a.length + 1` always suffices). -/
def matchingSizeAux (a b : List Char) : Nat → Nat → Nat → Nat → Nat → Nat
  | 0, _, _, _, _ => 0
  | fuel + 1, alo, ahi, blo, bhi =>
    let m := findLongestMatch a b alo ahi blo bhi
    if m.2.2 = 0 then 0
    else
      m.2.2 + matchingSizeAux a b fuel alo m.1 blo m.2.1 +
        matchingSizeAux a b fuel (m.1 + m.2.2) ahi (m.2.1 + m.2.2) bhi

def matchingSize (a b : List Char) : Nat :=
  matchingSizeAux a b (a.length + 1) 0 a.length 0 b.length

/-- difflib `ratio()` as an exact rational: `2 * M / T`, and 1 when both
sequences are empty. -/
def similarityScore (a b : String) : ℚ :=
  let t := a.length + b.length
  if t = 0 then 1 else 2 * (matchingSize a.data b.data : ℚ) / (t : ℚ)

/-- Selection step used by `heapq.nlargest(1, ...)` over `(ratio, word)`
pairs: keep the candidate with the larger pair in lexicographic order. -/
def pickBestCandidate (word : String) (acc : Option String) (x : String) : Option String :=
  match acc with
  | none => some x
  | some b =>
    if similarityScore b word < similarityScore x word ∨
        (similarityScore b word = similarityScore x word ∧ b < x) then some x
    else some b

/-- difflib `get_close_matches(word, possibilities, n=1, cutoff)`:
filter by `ratio() >= cutoff`, then take the largest `(ratio, word)` pair. -/
def getCloseMatches1 (word : String) (possibilities : List String) (cutoff : ℚ) :
    Option String :=
  (possibilities.filter (fun x => decide (cutoff ≤ similarityScore x word))).foldl
    (pickBestCandidate word) none

/-! ## The symptom resolver (`map_natural_language_symptoms`, `2e6afe8` side) -/

/-- Model of `set.add` on an order-kept representation of the Python set. -/
def insertToken (mapped : List String) (t : String) : List String :=
  if t ∈ mapped then mapped else mapped ++ [t]

/-- Body of the per-phrase loop of `map_natural_language_symptoms`:
exact match, then synonym table (first entry whose alternate phrasing is a
substring of the text and whose canonical token is in the vocabulary — the
`break` sits inside the vocabulary test, so non-vocabulary entries do not
stop the scan), then `get_close_matches` at cutoff 0.7, then the
compound-symptom stage (first vocabulary token one of whose words longer
than 3 characters occurs in the text). -/
def processSymptomText (vocab : List String) (mapped : List String) (text0 : String) :
    List String :=
  let text := pyStrip text0
  if text = "" then mapped
  else
    let cleanText := cleanSymptom text
    if cleanText ∈ vocab then insertToken mapped cleanText
    else
      match SYMPTOM_SYNONYMS.find?
          (fun e => e.2.any (fun syn => subStringOf syn text) && decide (e.1 ∈ vocab)) with
      | some e => insertToken mapped e.1
      | none =>
        match getCloseMatches1 (underscoreSpaces text) vocab (7/10) with
        | some m => insertToken mapped m
        | none =>
          match vocab.find?
              (fun sym => (pySplitWs (spaceUnderscores sym)).any
                (fun w => decide (3 < w.length) && subStringOf w text)) with
          | some sym => insertToken mapped sym
          | none => mapped

/-- Function `map_natural_language_symptoms` of app.py.  A string input is
lowercased and split on clause delimiters; a list input is lowercased
element-wise.  Each phrase is then resolved by `processSymptomText`. -/
def mapNaturalLanguageSymptoms (vocab : List String) (textSymptoms : String ⊕ List String) :
    List String :=
  let symptomTexts :=
    match textSymptoms with
    | Sum.inl s => splitDelimRuns (pyLower s)
    | Sum.inr l => l.map pyLower
  symptomTexts.foldl (processSymptomText vocab) []

/-! ## Confidence boost (`enhance_prediction_with_context`) -/

/-- The `symptom_combinations` dict literal. -/
def symptomCombinations : List (List String × String) := [
  (["fever", "cough", "fatigue"], "flu"),
  (["headache", "fever", "neck_stiffness"], "meningitis"),
  (["chest_pain", "shortness_of_breath"], "heart_condition"),
  (["abdominal_pain", "nausea", "vomiting"], "gastroenteritis")]

/-- Function `enhance_prediction_with_context` of app.py: add 0.2 (capped at
1.0) once, on the first high-signal combination contained in the symptom
list; the `prediction` argument is unused, as in the source. -/
def enhancePredictionWithContext (symptoms : List String) (prediction : Nat)
    (confidence : ℚ) : ℚ :=
  match symptomCombinations.find?
      (fun combo => combo.1.all (fun s => decide (s ∈ symptoms))) with
  | some _ => min (confidence + 1/5) 1
  | none => confidence

/-! ## Severity scorer (average-weight version in `predict`, `2e6afe8` side) -/

/-- Weight lookup against the severity table: the table key is stripped and
lowercased, the query symptom additionally has spaces replaced by
underscores; a missing symptom contributes 0. -/
def severityWeight (sevTable : List (String × ℚ)) (symptom : String) : ℚ :=
  let symptomClean := underscoreSpaces (pyLower (pyStrip symptom))
  match sevTable.find? (fun row => pyLower (pyStrip row.1) = symptomClean) with
  | some row => row.2
  | none => 0

def severityScore (sevTable : List (String × ℚ)) (symptoms : List String) : ℚ :=
  symptoms.foldl (fun acc s => acc + severityWeight sevTable s) 0

/-- Severity classification of `predict`: average matched weight against the
breakpoints 5/4/2, with default "medium" when the table is empty or no
symptom was matched. -/
def severityInfo (sevTable : List (String × ℚ)) (symptoms : List String) : String :=
  if sevTable ≠ [] ∧ 0 < symptoms.length then
    let avgSeverity := severityScore sevTable symptoms / (symptoms.length : ℚ)
    if 5 ≤ avgSeverity then "critical"
    else if 4 ≤ avgSeverity then "high"
    else if 2 ≤ avgSeverity then "medium"
    else "low"
  else "medium"

/-- Rank of a severity tier in the documented order low < medium < high < critical. -/
def tierRank (t : String) : Nat :=
  if t = "critical" then 3
  else if t = "high" then 2
  else if t = "medium" then 1
  else 0

/-! ## Disease-name normalisation -/

/-- Helper for Python `str.title()`: uppercase an alphabetic character that
follows a non-alphabetic one, lowercase the rest. -/
def pyTitleAux : Bool → List Char → List Char
  | _, [] => []
  | prevAlpha, c :: cs =>
    (if c.isAlpha then (if prevAlpha then c.toLower else c.toUpper) else c) ::
      pyTitleAux c.isAlpha cs

/-- Function `standardize_disease_name` of app.py: `strip().title()`. -/
def standardizeDiseaseName (name : String) : String :=
  ⟨pyTitleAux false (pyStrip name).data⟩

/-! ## The prediction endpoint (`predict`, `2e6afe8` side)

The classifier (`MODEL.predict` / `MODEL.predict_proba`) is an abstract
function from the binary feature vector to a class index and a probability
vector; the label encoder is the sorted class list; the response carries
the fields the specification talks about. -/

/-- The JSON `symptoms` field of a request: a string, an array (stringified
element-wise by the route before resolution), or any other JSON value. -/
inductive SymptomsField where
  | str (s : String)
  | list (l : List String)
  | other
deriving DecidableEq

structure ErrorResponse where
  status : Nat
  error : String
  suggestions : Option String
deriving DecidableEq

structure PredictionResponse where
  disease : String
  matched_symptoms : List String
  confidence : ℚ
  severity : String
  total_symptoms_analyzed : Nat
  prediction_quality : String
deriving DecidableEq

/-- The 400 response "Symptoms must be string or array". -/
def symptomsTypeError : ErrorResponse :=
  ⟨400, "Symptoms must be string or array", none⟩

/-- The 400 response "No valid symptoms could be mapped from your input",
whose `suggestions` string joins the first 10 of the first 20 vocabulary
tokens (`SYMPTOM_LIST[:20]` then `[:10]`). -/
def noSymptomsError (vocab : List String) : ErrorResponse :=
  ⟨400, "No valid symptoms could be mapped from your input",
    some ("Try using symptoms like: " ++ String.intercalate ", " ((vocab.take 20).take 10))⟩

/-- Input dispatch of `predict`: a string is resolved directly, a list is
resolved element-wise (each element through the string path, then
deduplicated via `set`), anything else is rejected (`none`). -/
def resolveSymptomsField (vocab : List String) (symptoms : SymptomsField) :
    Option (List String) :=
  match symptoms with
  | SymptomsField.str s => some (mapNaturalLanguageSymptoms vocab (Sum.inl s))
  | SymptomsField.list l =>
      some ((l.flatMap (fun sym => mapNaturalLanguageSymptoms vocab (Sum.inl sym))).dedup)
  | SymptomsField.other => none

/-- Model of `numpy.ndarray.max()` on the probability vector (0 when empty,
which cannot occur for a fitted classifier). -/
def listMax : List ℚ → ℚ
  | [] => 0
  | h :: t => t.foldl max h

/-- The `/predict` route body of app.py (`2e6afe8` side), as a pure function
of the read-only model context: type-check the `symptoms` field, resolve it,
reject an empty resolution with a vocabulary sample, otherwise build the
binary feature vector over the vocabulary, query the classifier, apply the
contextual confidence boost, and assemble the response.  The route never
writes `MODEL`, `SYMPTOM_LIST`, `LABEL_ENCODER` or any other module-level
state, so shared state is untouched by construction. -/
def predict (vocab classes : List String) (sevTable : List (String × ℚ))
    (model : List Nat → Nat × List ℚ) (symptoms : SymptomsField) :
    Except ErrorResponse PredictionResponse :=
  match resolveSymptomsField vocab symptoms with
  | none => Except.error symptomsTypeError
  | some mapped =>
    if mapped.isEmpty then Except.error (noSymptomsError vocab)
    else
      let features := vocab.map (fun sym => if sym ∈ mapped then 1 else 0)
      let pr := model features
      let confidence := enhancePredictionWithContext mapped pr.1 (listMax pr.2)
      Except.ok
        ⟨standardizeDiseaseName (classes.getD pr.1 ""),
         mapped,
         confidence,
         severityInfo sevTable mapped,
         mapped.length,
         if 7/10 < confidence then "high"
         else if 2/5 < confidence then "medium" else "low"⟩

/-! ## The `HEAD`-side matcher (`enhance_symptom_matching`) -/

/-- The `symptom_synonyms` dict literal inside `enhance_symptom_matching`. -/
def headSymptomSynonyms : List (String × List String) := [
  ("fever", ["fever", "high_temperature", "pyrexia"]),
  ("headache", ["headache", "head_pain", "cephalgia"]),
  ("cough", ["cough", "coughing"]),
  ("tired", ["fatigue", "weakness", "tiredness"]),
  ("fatigue", ["fatigue", "weakness", "tired", "tiredness"]),
  ("body_aches", ["muscle_aches", "joint_pain", "body_pain"]),
  ("body_pain", ["muscle_aches", "joint_pain", "body_aches"]),
  ("stomach_pain", ["abdominal_pain", "belly_pain"]),
  ("nausea", ["nausea", "vomiting"]),
  ("runny_nose", ["runny_nose", "nasal_congestion"]),
  ("sore_throat", ["throat_irritation", "throat_pain"]),
  ("dizziness", ["dizziness", "vertigo"]),
  ("shortness_of_breath", ["breathlessness", "difficulty_breathing"]),
  ("chest_pain", ["chest_pain", "chest_tightness"]),
  ("back_pain", ["back_pain", "lower_back_pain"]),
  ("joint_pain", ["joint_pain", "arthritis", "stiffness"]),
  ("skin_rash", ["skin_rash", "rash"]),
  ("itching", ["itching", "pruritus"]),
  ("sweating", ["excessive_sweating", "night_sweats"]),
  ("loss_of_appetite", ["loss_of_appetite", "poor_appetite"]),
  ("weight_loss", ["weight_loss", "unexplained_weight_loss"]),
  ("difficulty_sleeping", ["insomnia", "sleep_disturbance"]),
  ("anxiety", ["anxiety", "nervousness", "worry"])]

/-- Synonym stage of `enhance_symptom_matching`: scan the table in order;
on an entry whose synonym list contains the input token, append the first
synonym that is an available symptom and stop, but keep scanning when no
synonym of that entry is available (the inner `break` only fires on a
successful append). -/
def headSynStep (availableSymptoms : List String) (symptom : String)
    (acc : Option String) (e : String × List String) : Option String :=
  match acc with
  | some r => some r
  | none =>
    if symptom ∈ e.2 then e.2.find? (fun syn => decide (syn ∈ availableSymptoms))
    else none

def headSynonymLookup (availableSymptoms : List String) (symptom : String) :
    Option String :=
  headSymptomSynonyms.foldl (headSynStep availableSymptoms symptom) none

/-- Function `enhance_symptom_matching` of app.py (`HEAD` side): direct
match, synonym stage, then the substring stage, which appends the FIRST
available symptom (in list order) that contains the input or is contained
in it, provided the input is longer than 2 characters; duplicates are
removed at the end (`list(set(...))`). -/
def enhanceSymptomMatching (inputSymptoms availableSymptoms : List String) :
    List String :=
  (inputSymptoms.foldl
    (fun matched symptom =>
      if symptom ∈ availableSymptoms then matched ++ [symptom]
      else
        match headSynonymLookup availableSymptoms symptom with
        | some syn => matched ++ [syn]
        | none =>
          match availableSymptoms.find?
              (fun avail => (subStringOf symptom avail || subStringOf avail symptom) &&
                decide (2 < symptom.length)) with
          | some avail => matched ++ [avail]
          | none => matched)
    []).dedup

/-! ## Startup (`__main__`) and training (`train_model`) -/

structure TrainedArtifact where
  vocabulary : List String
  classes : List String
  labels : List Nat
deriving DecidableEq

/-- Function `train_model` of app.py restricted to its data artifacts: the
vocabulary is the sorted set of all symptom tokens, the label encoder is the
sorted set of disease names (scikit-learn `LabelEncoder` sorts its classes),
and each record is encoded by the index of its disease. -/
def trainModel (dataset : List (List String × String)) : TrainedArtifact :=
  let classes := ((dataset.map Prod.snd).dedup).mergeSort (fun a b => decide (a ≤ b))
  ⟨((dataset.flatMap Prod.fst).dedup).mergeSort (fun a b => decide (a ≤ b)),
   classes,
   dataset.map (fun row => classes.indexOf row.2)⟩

/-- The `__main__` startup block of app.py: it unconditionally calls
`load_data` followed by `train_model` — there is no cache lookup, no content
hash and no persisted artifact anywhere in the service — so every run
(first or repeated) performs training.  The boolean records that training
was performed during the run. -/
def startup (dataset : List (List String × String)) : TrainedArtifact × Bool :=
  (trainModel dataset, true)

/-! ## Concrete artefacts used by witnesses and counterexamples

Batteries marks the rational arithmetic operations irreducible for the
elaborator; the kernel ignores reducibility, so restoring the default
transparency locally lets closed rational computations below be settled by
`decide`. -/

attribute [local semireducible] Rat.add Rat.mul Rat.inv Rat.sub

instance : DecidableEq (Except ErrorResponse PredictionResponse) := fun a b =>
  match a, b with
  | Except.ok x, Except.ok y =>
    if h : x = y then isTrue (by rw [h])
    else isFalse (fun hh => h (Except.ok.inj hh))
  | Except.error x, Except.error y =>
    if h : x = y then isTrue (by rw [h])
    else isFalse (fun hh => h (Except.error.inj hh))
  | Except.ok _, Except.error _ => isFalse (fun hh => Except.noConfusion hh)
  | Except.error _, Except.ok _ => isFalse (fun hh => Except.noConfusion hh)

/-- A classifier stub that always answers class 0 with probability 1. -/
def constModel1 : List Nat → Nat × List ℚ := fun _ => (0, [1])

/-- A classifier stub that always answers class 0 with probability 1/2. -/
def modelHalf : List Nat → Nat × List ℚ := fun _ => (0, [1/2])

/-- A two-record training dataset, used to exercise the startup step. -/
def exampleDataset : List (List String × String) :=
  [(["fever", "cough"], "Flu"), (["headache"], "Migraine")]

/-- The free-text request of Scenario B. -/
def scenarioBText : String := "I have a high temperature and can\x27t breathe"

/-- A vocabulary containing both canonical tokens of Scenario B. -/
def scenarioBVocabulary : List String := ["fever", "shortness_of_breath"]

/-! ## Character-level lemmas about ASCII lowering -/

theorem charToNat_ofNat_of_lt {n : Nat} (h : n < 55296) : (Char.ofNat n).toNat = n := by
  have hv : n.isValidChar := Or.inl h
  unfold Char.ofNat
  rw [dif_pos hv]
  rfl

theorem toLower_toNat_of_upper {c : Char} (h1 : 65 ≤ c.toNat) (h2 : c.toNat ≤ 90) :
    c.toLower.toNat = c.toNat + 32 := by
  unfold Char.toLower
  rw [if_pos ⟨h1, h2⟩]
  exact charToNat_ofNat_of_lt (by omega)

theorem toLower_eq_self {c : Char} (h : ¬(65 ≤ c.toNat ∧ c.toNat ≤ 90)) :
    c.toLower = c := by
  unfold Char.toLower
  rw [if_neg h]

theorem toLower_toLower (c : Char) : c.toLower.toLower = c.toLower := by
  by_cases h : 65 ≤ c.toNat ∧ c.toNat ≤ 90
  · have h3 := toLower_toNat_of_upper h.1 h.2
    apply toLower_eq_self
    omega
  · rw [toLower_eq_self h, toLower_eq_self h]

theorem isPySpace_toLower (c : Char) : isPySpace c.toLower = isPySpace c := by
  by_cases h : 65 ≤ c.toNat ∧ c.toNat ≤ 90
  · have h3 := toLower_toNat_of_upper h.1 h.2
    unfold isPySpace
    rw [h3, decide_eq_decide]
    omega
  · rw [toLower_eq_self h]

/-! ## Normalisation lemmas: strip and lower commute, both idempotent -/

theorem pyLower_pyLower (s : String) : pyLower (pyLower s) = pyLower s := by
  unfold pyLower
  congr 1
  rw [List.map_map]
  exact List.map_congr_left (fun a _ => toLower_toLower a)

theorem stripList_map_toLower (l : List Char) :
    stripList isPySpace (l.map Char.toLower) = (stripList isPySpace l).map Char.toLower := by
  have hpf : (isPySpace ∘ Char.toLower) = isPySpace := funext isPySpace_toLower
  unfold stripList
  rw [List.dropWhile_map, hpf, ← List.map_reverse, List.dropWhile_map, hpf, ← List.map_reverse]

theorem pyStrip_pyLower (s : String) : pyStrip (pyLower s) = pyLower (pyStrip s) := by
  unfold pyStrip pyLower
  congr 1
  exact stripList_map_toLower s.data

theorem dropWhile_dropWhile (p : Char → Bool) (l : List Char) :
    (l.dropWhile p).dropWhile p = l.dropWhile p := by
  have h := List.head?_dropWhile_not p l
  cases hd : l.dropWhile p with
  | nil => rfl
  | cons c cs =>
    rw [hd] at h
    simp only [List.head?] at h
    exact List.dropWhile_cons_of_neg (by simp [h])

theorem head?_of_stripTrail {p : Char → Bool} {x : List Char} {c : Char}
    (hc : ((x.reverse.dropWhile p).reverse).head? = some c) : x.head? = some c := by
  have hx : x = (x.reverse.dropWhile p).reverse ++ (x.reverse.takeWhile p).reverse := by
    conv_lhs => rw [← x.reverse_reverse,
      ← List.takeWhile_append_dropWhile p x.reverse]
    rw [List.reverse_append]
  cases hd : (x.reverse.dropWhile p).reverse with
  | nil => rw [hd] at hc; exact absurd hc (by simp)
  | cons a as =>
    rw [hd] at hc
    simp only [List.head?] at hc
    rw [hx, hd]
    simp only [List.cons_append, List.head?]
    exact hc

theorem stripList_stripList (p : Char → Bool) (l : List Char) :
    stripList p (stripList p l) = stripList p l := by
  have hheadfail : ∀ c, (l.dropWhile p).head? = some c → p c = false := by
    intro c hc
    have h := List.head?_dropWhile_not p l
    rw [hc] at h
    exact h
  have hhead : ∀ m : List Char, (∀ c, m.head? = some c → p c = false) →
      m.dropWhile p = m := by
    intro m hm
    cases m with
    | nil => rfl
    | cons c cs => exact List.dropWhile_cons_of_neg (by simp [hm c rfl])
  unfold stripList
  have h1 : (((l.dropWhile p).reverse.dropWhile p).reverse).dropWhile p =
      ((l.dropWhile p).reverse.dropWhile p).reverse :=
    hhead _ (fun c hc => hheadfail c (head?_of_stripTrail hc))
  rw [h1, List.reverse_reverse, dropWhile_dropWhile]

theorem pyStrip_pyStrip (s : String) : pyStrip (pyStrip s) = pyStrip s := by
  unfold pyStrip
  congr 1
  exact stripList_stripList isPySpace s.data

theorem cleanSymptom_strip_lower (s : String) :
    cleanSymptom (pyStrip (pyLower s)) = cleanSymptom s := by
  unfold cleanSymptom
  rw [pyStrip_pyStrip, pyStrip_pyLower, pyLower_pyLower]

theorem cleanSymptom_empty : cleanSymptom "" = "" := by decide

theorem cleanSymptom_of_strip_lower_empty {s : String} (h : pyStrip (pyLower s) = "") :
    cleanSymptom s = "" := by
  rw [← cleanSymptom_strip_lower s, h, cleanSymptom_empty]

/-! ## Closure of the resolver in the vocabulary -/

theorem mem_insertToken {mapped : List String} {t x : String}
    (h : x ∈ insertToken mapped t) : x ∈ mapped ∨ x = t := by
  unfold insertToken at h
  by_cases ht : t ∈ mapped
  · rw [if_pos ht] at h
    exact Or.inl h
  · rw [if_neg ht] at h
    rcases List.mem_append.mp h with h1 | h1
    · exact Or.inl h1
    · exact Or.inr (List.mem_singleton.mp h1)

theorem pickBestCandidate_cases (word : String) (acc : Option String) (a x : String)
    (h : pickBestCandidate word acc a = some x) : acc = some x ∨ x = a := by
  unfold pickBestCandidate at h
  cases acc with
  | none => exact Or.inr (Option.some.inj h).symm
  | some b =>
    have h2 : (if similarityScore b word < similarityScore a word ∨
        (similarityScore b word = similarityScore a word ∧ b < a) then some a
      else some b) = some x := h
    by_cases hc : similarityScore b word < similarityScore a word ∨
        (similarityScore b word = similarityScore a word ∧ b < a)
    · rw [if_pos hc] at h2
      exact Or.inr (Option.some.inj h2).symm
    · rw [if_neg hc] at h2
      exact Or.inl h2

theorem foldl_pickBest_mem (word : String) :
    ∀ (l : List String) (acc : Option String) (x : String),
      l.foldl (pickBestCandidate word) acc = some x → acc = some x ∨ x ∈ l := by
  intro l
  induction l with
  | nil => intro acc x h; exact Or.inl h
  | cons a as ih =>
    intro acc x h
    rcases ih (pickBestCandidate word acc a) x h with h1 | h1
    · rcases pickBestCandidate_cases word acc a x h1 with h2 | h2
      · exact Or.inl h2
      · exact Or.inr (by rw [h2]; exact List.mem_cons_self a as)
    · exact Or.inr (List.mem_cons_of_mem a h1)

theorem getCloseMatches1_mem {word : String} {poss : List String} {cutoff : ℚ}
    {x : String} (h : getCloseMatches1 word poss cutoff = some x) : x ∈ poss := by
  unfold getCloseMatches1 at h
  rcases foldl_pickBest_mem word _ none x h with h1 | h1
  · exact absurd h1 (by simp)
  · exact List.mem_of_mem_filter h1

theorem processSymptomText_mem {vocab mapped : List String} {t x : String}
    (hm : ∀ y ∈ mapped, y ∈ vocab)
    (hx : x ∈ processSymptomText vocab mapped t) : x ∈ vocab := by
  unfold processSymptomText at hx
  by_cases h0 : pyStrip t = ""
  · rw [if_pos h0] at hx
    exact hm x hx
  · rw [if_neg h0] at hx
    by_cases h1 : cleanSymptom (pyStrip t) ∈ vocab
    · rw [if_pos h1] at hx
      rcases mem_insertToken hx with h2 | h2
      · exact hm x h2
      · rw [h2]; exact h1
    · rw [if_neg h1] at hx
      cases hsyn : SYMPTOM_SYNONYMS.find?
          (fun e => e.2.any (fun syn => subStringOf syn (pyStrip t)) &&
            decide (e.1 ∈ vocab)) with
      | some e =>
        rw [hsyn] at hx
        rcases mem_insertToken hx with h2 | h2
        · exact hm x h2
        · have hpred := List.find?_some hsyn
          rw [Bool.and_eq_true] at hpred
          rw [h2]
          exact of_decide_eq_true hpred.2
      | none =>
        rw [hsyn] at hx
        cases hfuz : getCloseMatches1 (underscoreSpaces (pyStrip t)) vocab (7/10) with
        | some m =>
          rw [hfuz] at hx
          rcases mem_insertToken hx with h2 | h2
          · exact hm x h2
          · rw [h2]; exact getCloseMatches1_mem hfuz
        | none =>
          rw [hfuz] at hx
          cases hps : vocab.find?
              (fun sym => (pySplitWs (spaceUnderscores sym)).any
                (fun w => decide (3 < w.length) && subStringOf w (pyStrip t))) with
          | some sym =>
            rw [hps] at hx
            rcases mem_insertToken hx with h2 | h2
            · exact hm x h2
            · rw [h2]; exact List.mem_of_find?_eq_some hps
          | none =>
            rw [hps] at hx
            exact hm x hx

theorem foldl_process_mem {vocab : List String} :
    ∀ (texts : List String) (acc : List String),
      (∀ y ∈ acc, y ∈ vocab) →
      ∀ x ∈ texts.foldl (processSymptomText vocab) acc, x ∈ vocab := by
  intro texts
  induction texts with
  | nil => intro acc hacc x hx; exact hacc x hx
  | cons t ts ih =>
    intro acc hacc x hx
    exact ih (processSymptomText vocab acc t)
      (fun y hy => processSymptomText_mem hacc hy) x hx

theorem mapNaturalLanguageSymptoms_mem {vocab : List String}
    {inp : String ⊕ List String} {x : String}
    (hx : x ∈ mapNaturalLanguageSymptoms vocab inp) : x ∈ vocab := by
  unfold mapNaturalLanguageSymptoms at hx
  cases inp with
  | inl s => exact foldl_process_mem _ [] (by simp) x hx
  | inr l => exact foldl_process_mem _ [] (by simp) x hx

theorem resolveSymptomsField_mem {vocab : List String} {symptoms : SymptomsField}
    {mapped : List String} (h : resolveSymptomsField vocab symptoms = some mapped) :
    ∀ x ∈ mapped, x ∈ vocab := by
  cases symptoms with
  | str s =>
    intro x hx
    have hm : mapped = mapNaturalLanguageSymptoms vocab (Sum.inl s) :=
      (Option.some.inj h).symm
    rw [hm] at hx
    exact mapNaturalLanguageSymptoms_mem hx
  | list l =>
    intro x hx
    have hm : mapped =
        (l.flatMap (fun sym => mapNaturalLanguageSymptoms vocab (Sum.inl sym))).dedup :=
      (Option.some.inj h).symm
    rw [hm] at hx
    rcases List.mem_flatMap.mp (List.mem_dedup.mp hx) with ⟨sym, _, hx2⟩
    exact mapNaturalLanguageSymptoms_mem hx2
  | other => exact absurd h (by simp [resolveSymptomsField])

/-! ## Bounds of the confidence boost -/

theorem enhancePrediction_cases (symptoms : List String) (prediction : Nat) (c : ℚ) :
    enhancePredictionWithContext symptoms prediction c = c ∨
      enhancePredictionWithContext symptoms prediction c = min (c + 1/5) 1 := by
  unfold enhancePredictionWithContext
  cases symptomCombinations.find?
      (fun combo => combo.1.all (fun s => decide (s ∈ symptoms))) with
  | none => exact Or.inl rfl
  | some e => exact Or.inr rfl

theorem enhancePrediction_bounds {symptoms : List String} {prediction : Nat} {c : ℚ}
    (h1 : c ≤ 1) :
    c ≤ enhancePredictionWithContext symptoms prediction c ∧
      enhancePredictionWithContext symptoms prediction c ≤ 1 := by
  rcases enhancePrediction_cases symptoms prediction c with h | h <;> rw [h]
  · exact ⟨le_refl c, h1⟩
  · constructor
    · exact le_min (by linarith) h1
    · exact min_le_right _ _

theorem listMax_bounds {l : List ℚ} (h : ∀ p ∈ l, 0 ≤ p ∧ p ≤ 1) :
    0 ≤ listMax l ∧ listMax l ≤ 1 := by
  cases l with
  | nil => exact ⟨le_refl 0, by norm_num [listMax]⟩
  | cons a t =>
    have key : ∀ (t : List ℚ) (acc : ℚ), 0 ≤ acc → acc ≤ 1 →
        (∀ p ∈ t, 0 ≤ p ∧ p ≤ 1) → 0 ≤ t.foldl max acc ∧ t.foldl max acc ≤ 1 := by
      intro t
      induction t with
      | nil => intro acc h0 h1 _; exact ⟨h0, h1⟩
      | cons b t2 ih =>
        intro acc h0 h1 hall
        have hb := hall b (List.mem_cons_self b t2)
        exact ih (max acc b) (le_max_of_le_left h0) (max_le h1 hb.2)
          (fun p hp => hall p (List.mem_cons_of_mem b hp))
    have ha := h a (List.mem_cons_self a t)
    exact key t a ha.1 ha.2 (fun p hp => h p (List.mem_cons_of_mem a hp))

/-! ## Severity-score lemmas -/

theorem severityScore_append (sevTable : List (String × ℚ)) (l : List String)
    (s : String) :
    severityScore sevTable (l ++ [s]) =
      severityScore sevTable l + severityWeight sevTable s := by
  unfold severityScore
  rw [List.foldl_append]
  rfl

theorem foldl_weight_lt (w : String → ℚ) (v : ℚ) :
    ∀ (l : List String) (a : ℚ), l ≠ [] → (∀ x ∈ l, w x < v) →
      l.foldl (fun acc x => acc + w x) a < a + (l.length : ℚ) * v := by
  intro l
  induction l with
  | nil => intro a h _; exact absurd rfl h
  | cons x t ih =>
    intro a _ hall
    have hx := hall x (List.mem_cons_self x t)
    cases t with
    | nil =>
      simp only [List.foldl, List.length_cons, List.length_nil]
      push_cast
      linarith
    | cons y t2 =>
      have ht := ih (a + w x) (by simp)
        (fun z hz => hall z (List.mem_cons_of_mem x hz))
      simp only [List.foldl] at ht ⊢
      simp only [List.length_cons] at ht ⊢
      push_cast at ht ⊢
      linarith

theorem severityScore_lt_length_mul {sevTable : List (String × ℚ)} {l : List String}
    {s : String} (hne : l ≠ [])
    (hlt : ∀ x ∈ l, severityWeight sevTable x < severityWeight sevTable s) :
    severityScore sevTable l < (l.length : ℚ) * severityWeight sevTable s := by
  have h := foldl_weight_lt (severityWeight sevTable) (severityWeight sevTable s)
    l 0 hne hlt
  unfold severityScore
  linarith

theorem tierRank_le_three (t : String) : tierRank t ≤ 3 := by
  unfold tierRank
  split_ifs <;> decide

theorem tier_of_avg_mono {a b : ℚ} (hab : a ≤ b) :
    tierRank (if 5 ≤ a then "critical" else if 4 ≤ a then "high"
      else if 2 ≤ a then "medium" else "low") ≤
    tierRank (if 5 ≤ b then "critical" else if 4 ≤ b then "high"
      else if 2 ≤ b then "medium" else "low") := by
  by_cases h5b : 5 ≤ b
  · rw [if_pos h5b]
    exact le_trans (tierRank_le_three _) (by decide)
  · rw [if_neg h5b, if_neg (fun h => h5b (le_trans h hab))]
    by_cases h4b : 4 ≤ b
    · rw [if_pos h4b]
      by_cases h4a : 4 ≤ a
      · rw [if_pos h4a]
      · rw [if_neg h4a]
        split_ifs <;> decide
    · rw [if_neg h4b, if_neg (fun h => h4b (le_trans h hab))]
      by_cases h2b : 2 ≤ b
      · rw [if_pos h2b]
        split_ifs <;> decide
      · rw [if_neg h2b, if_neg (fun h => h2b (le_trans h hab))]

/-! ## HEAD-side synonym-table scan -/

theorem headSynonymLookup_none {available : List String} {symptom : String}
    (h : ∀ e ∈ headSymptomSynonyms, symptom ∉ e.2) :
    headSynonymLookup available symptom = none := by
  unfold headSynonymLookup
  have gen : ∀ table : List (String × List String),
      (∀ e ∈ table, symptom ∉ e.2) →
      table.foldl (headSynStep available symptom) none = none := by
    intro table
    induction table with
    | nil => intro _; rfl
    | cons e t ih =>
      intro hall
      rw [List.foldl_cons]
      have hstep : headSynStep available symptom none e = none :=
        if_neg (hall e (List.mem_cons_self e t))
      rw [hstep]
      exact ih (fun e2 he2 => hall e2 (List.mem_cons_of_mem e he2))
  exact gen _ h

/-! ## Claim C1 -/

/-- C1.  Closure invariant: for every prediction request (string or list
input) that yields a successful response, every symptom token in the
`matched_symptoms` field — the symptom resolver output — is a member of the
training-time vocabulary `SYMPTOM_LIST`: each of the four resolver stages of
`map_natural_language_symptoms` only ever adds vocabulary members. -/
theorem predict_matched_symptoms_in_vocabulary
    (vocab classes : List String) (sevTable : List (String × ℚ))
    (model : List Nat → Nat × List ℚ) (symptoms : SymptomsField)
    (r : PredictionResponse)
    (h : predict vocab classes sevTable model symptoms = Except.ok r) :
    ∀ x ∈ r.matched_symptoms, x ∈ vocab := by
  unfold predict at h
  split at h
  next => exact Except.noConfusion h
  next mapped hres =>
    split at h
    next => exact Except.noConfusion h
    next hemp =>
      intro x hx
      have hr := Except.ok.inj h
      rw [← hr] at hx
      exact resolveSymptomsField_mem hres x hx

/-- Witness for C1: the request `["fever"]` against the vocabulary
`["fever"]` succeeds and the theorem places its matched symptom in the
vocabulary. -/
theorem predict_matched_symptoms_in_vocabulary_witness :
    ("fever" : String) ∈ ["fever"] :=
  predict_matched_symptoms_in_vocabulary ["fever"] ["Flu"] [] constModel1
    (SymptomsField.list ["fever"])
    ⟨"Flu", ["fever"], 1, "medium", 1, "high"⟩ (by decide) "fever" (by decide)

/-! ## Claim C3 -/

/-- C3.  When the resolver output is empty (no input token maps to any
vocabulary token), `predict` answers the 400 response carrying a sample of
the vocabulary (`SYMPTOM_LIST[:20]` joined from its first 10 entries) as a
remediation hint.  The right-hand side does not mention `model` — the
conclusion holds for every classifier, so the classifier is never invoked —
and `predict` is a pure function of the read-only context, so shared model
state is unchanged. -/
theorem empty_resolution_yields_no_symptoms_error
    (vocab classes : List String) (sevTable : List (String × ℚ))
    (model : List Nat → Nat × List ℚ) (symptoms : SymptomsField)
    (h : resolveSymptomsField vocab symptoms = some []) :
    predict vocab classes sevTable model symptoms =
      Except.error (noSymptomsError vocab) := by
  unfold predict
  rw [h]
  rfl

/-- Witness for C3: the Scenario C request `["xyz123"]` against the
vocabulary `["fever"]` resolves to the empty set and is rejected with the
vocabulary sample. -/
theorem empty_resolution_yields_no_symptoms_error_witness :
    predict ["fever"] ["Flu"] [] constModel1 (SymptomsField.list ["xyz123"]) =
      Except.error (noSymptomsError ["fever"]) :=
  empty_resolution_yields_no_symptoms_error ["fever"] ["Flu"] [] constModel1
    (SymptomsField.list ["xyz123"]) (by decide)

/-! ## Claim C5 -/

/-- C5.  Resolver exactness: an input token whose normalised form
(`clean_symptom`: trim, lowercase, whitespace to underscore) is already a
member of the vocabulary resolves to exactly that token — the exact-match
stage fires before any fuzzy or partial stage.  The hypothesis that the
empty string is not a vocabulary member always holds for a trained
vocabulary, since `load_data` drops tokens whose cleaned form is empty. -/
theorem resolver_exact_match_returns_token
    (vocab : List String) (s : String)
    (hvocab : "" ∉ vocab)
    (hmem : cleanSymptom s ∈ vocab) :
    mapNaturalLanguageSymptoms vocab (Sum.inr [s]) = [cleanSymptom s] := by
  have hne : cleanSymptom s ≠ "" := fun he => hvocab (he ▸ hmem)
  unfold mapNaturalLanguageSymptoms
  simp only [List.map, List.foldl]
  unfold processSymptomText
  have htext : pyStrip (pyLower s) ≠ "" := by
    intro h0
    exact hne (cleanSymptom_of_strip_lower_empty h0)
  rw [if_neg htext, cleanSymptom_strip_lower, if_pos hmem]
  unfold insertToken
  rw [if_neg (by simp)]
  rfl

/-- Witness for C5: `"Fever"` cleans to `"fever"`, a member of the
vocabulary `["fever"]`, and resolves to exactly that token. -/
theorem resolver_exact_match_returns_token_witness :
    mapNaturalLanguageSymptoms ["fever"] (Sum.inr ["Fever"]) = [cleanSymptom "Fever"] :=
  resolver_exact_match_returns_token ["fever"] "Fever" (by decide) (by decide)

/-! ## Claim C9 -/

/-- C9.  Bounded monotone confidence boost: `enhance_prediction_with_context`
returns either the confidence unchanged or `min (confidence + 0.2) 1`, hence
for `0 ≤ c ≤ 1` the result lies in `[c, 1]`; the disjunction also shows the
boost is applied at most once per call — the scan `break`s at the first
high-signal combination, so the result is never `c + 0.4`. -/
theorem confidence_boost_bounded_and_single
    (symptoms : List String) (prediction : Nat) (c : ℚ)
    (h0 : 0 ≤ c) (h1 : c ≤ 1) :
    (enhancePredictionWithContext symptoms prediction c = c ∨
      enhancePredictionWithContext symptoms prediction c = min (c + 1/5) 1) ∧
    c ≤ enhancePredictionWithContext symptoms prediction c ∧
    enhancePredictionWithContext symptoms prediction c ≤ 1 :=
  ⟨enhancePrediction_cases symptoms prediction c, enhancePrediction_bounds h1⟩

/-- Witness for C9 at a symptom list containing two distinct high-signal
combinations: the boost is still applied only once. -/
theorem confidence_boost_bounded_and_single_witness :
    (enhancePredictionWithContext
        ["fever", "cough", "fatigue", "abdominal_pain", "nausea", "vomiting"] 0
        (1/2) = 1/2 ∨
      enhancePredictionWithContext
        ["fever", "cough", "fatigue", "abdominal_pain", "nausea", "vomiting"] 0
        (1/2) = min ((1:ℚ)/2 + 1/5) 1) ∧
    (1:ℚ)/2 ≤ enhancePredictionWithContext
        ["fever", "cough", "fatigue", "abdominal_pain", "nausea", "vomiting"] 0 (1/2) ∧
    enhancePredictionWithContext
        ["fever", "cough", "fatigue", "abdominal_pain", "nausea", "vomiting"] 0 (1/2) ≤ 1 :=
  confidence_boost_bounded_and_single
    ["fever", "cough", "fatigue", "abdominal_pain", "nausea", "vomiting"] 0 (1/2)
    (by norm_num) (by norm_num)

/-! ## Claim C10 -/

/-- C10.  Input-type guard: a request whose `symptoms` field is neither a
string nor a list is rejected with the 400 response "Symptoms must be string
or array".  The result is a constant: it does not depend on the vocabulary,
the classifier or the severity table, so no resolution or classification is
attempted, and `predict` is a pure function of the read-only context, so
shared model state is unchanged. -/
theorem non_string_non_list_symptoms_rejected
    (vocab classes : List String) (sevTable : List (String × ℚ))
    (model : List Nat → Nat × List ℚ) :
    predict vocab classes sevTable model SymptomsField.other =
      Except.error symptomsTypeError := rfl

/-! ## Claim C6 -/

/-- C6.  Severity monotonicity: appending a symptom whose severity weight is
strictly above the weight of every symptom already resolved never decreases
the severity tier (low < medium < high < critical, compared by `tierRank`).
The resolved set is non-empty, which always holds where the scorer runs:
`predict` rejects empty resolutions before computing severity.  No
assumption on the severity table is needed: an empty table gives "medium" on
both sides, and otherwise the average weight cannot decrease because the
new weight exceeds the old average. -/
theorem severity_tier_monotone_add_heavier
    (sevTable : List (String × ℚ)) (l : List String) (s : String)
    (hne : l ≠ [])
    (hlt : ∀ x ∈ l, severityWeight sevTable x < severityWeight sevTable s) :
    tierRank (severityInfo sevTable l) ≤
      tierRank (severityInfo sevTable (l ++ [s])) := by
  by_cases hsev : sevTable = []
  · subst hsev
    unfold severityInfo
    rw [if_neg (by simp), if_neg (by simp)]
  · have hlen : 0 < l.length := List.length_pos.mpr hne
    have hlen2 : 0 < (l ++ [s]).length := by simp
    have hn : (0:ℚ) < (l.length : ℚ) := by exact_mod_cast hlen
    have hSlt := severityScore_lt_length_mul hne hlt
    have hlapp : (((l ++ [s]).length : ℕ) : ℚ) = (l.length : ℚ) + 1 := by
      rw [List.length_append]
      push_cast
      norm_num
    have hmono : severityScore sevTable l / (l.length : ℚ) ≤
        severityScore sevTable (l ++ [s]) / ((l ++ [s]).length : ℚ) := by
      rw [severityScore_append, hlapp, div_le_div_iff hn (by linarith)]
      nlinarith [hSlt]
    have hc1 : sevTable ≠ [] ∧ 0 < l.length := ⟨hsev, hlen⟩
    have hc2 : sevTable ≠ [] ∧ 0 < (l ++ [s]).length := ⟨hsev, hlen2⟩
    unfold severityInfo
    rw [if_pos hc1, if_pos hc2]
    exact tier_of_avg_mono hmono

/-- Witness for C6: adding `fever` (weight 3) to the resolved set
`["cough"]` (weight 0, absent from the table) keeps the tier at "low". -/
theorem severity_tier_monotone_add_heavier_witness :
    tierRank (severityInfo [("fever", 3)] ["cough"]) ≤
      tierRank (severityInfo [("fever", 3)] (["cough"] ++ ["fever"])) :=
  severity_tier_monotone_add_heavier [("fever", 3)] ["cough"] "fever"
    (by decide) (by decide)

/-! ## Claim C2 -/

/-- C2 counterexample: the code applies no 0.95 ceiling (nor a 0.25 floor).
At the request `["fever"]` with a classifier reporting probability 1, the
successful response carries confidence 1, which violates
`confidence ≤ 0.95`. -/
theorem predict_confidence_above_claimed_ceiling :
    predict ["fever"] ["Flu"] [] constModel1 (SymptomsField.list ["fever"]) =
      Except.ok ⟨"Flu", ["fever"], 1, "medium", 1, "high"⟩ ∧
    ¬ ((1 : ℚ) ≤ 95/100) := ⟨by decide, by norm_num⟩

/-- C2 amended: for every prediction made from a non-empty resolved symptom
set, with classifier probabilities in `[0, 1]`, the confidence in the
response satisfies `0 ≤ confidence ≤ 1` — it is the maximum class
probability, optionally boosted by 0.2 and capped at 1; the code contains no
0.25 floor and no 0.95 ceiling. -/
theorem predict_confidence_in_unit_interval
    (vocab classes : List String) (sevTable : List (String × ℚ))
    (model : List Nat → Nat × List ℚ) (symptoms : SymptomsField)
    (r : PredictionResponse)
    (hmodel : ∀ f : List Nat, ∀ p ∈ (model f).2, 0 ≤ p ∧ p ≤ 1)
    (h : predict vocab classes sevTable model symptoms = Except.ok r) :
    0 ≤ r.confidence ∧ r.confidence ≤ 1 := by
  unfold predict at h
  split at h
  next => exact Except.noConfusion h
  next mapped hres =>
    split at h
    next => exact Except.noConfusion h
    next hemp =>
      have hr := Except.ok.inj h
      have hmax := listMax_bounds
        (hmodel (vocab.map (fun sym => if sym ∈ mapped then 1 else 0)))
      have hb := @enhancePrediction_bounds mapped
        (model (vocab.map (fun sym => if sym ∈ mapped then 1 else 0))).1
        (listMax (model (vocab.map (fun sym => if sym ∈ mapped then 1 else 0))).2)
        hmax.2
      rw [← hr]
      exact ⟨le_trans hmax.1 hb.1, hb.2⟩

/-- Witness for C2 amended: a classifier reporting probability 1/2 yields a
response whose confidence 1/2 lies in the unit interval. -/
theorem predict_confidence_in_unit_interval_witness :
    0 ≤ (⟨"Flu", ["fever"], 1/2, "medium", 1, "medium"⟩ : PredictionResponse).confidence ∧
      (⟨"Flu", ["fever"], 1/2, "medium", 1, "medium"⟩ : PredictionResponse).confidence ≤ 1 :=
  predict_confidence_in_unit_interval ["fever"] ["Flu"] [] modelHalf
    (SymptomsField.list ["fever"])
    ⟨"Flu", ["fever"], 1/2, "medium", 1, "medium"⟩
    (by
      intro f p hp
      simp only [modelHalf, List.mem_singleton] at hp
      rw [hp]
      norm_num)
    (by decide)

/-! ## Claim C4 -/

/-- C4 counterexample: the `__main__` startup block has no cache — it never
consults a persisted artifact, content hash or schema version — so on the
second run over the byte-identical dataset training is performed again
(`(startup d).2 = true`), refuting the claimed cache hit with training
skipped. -/
theorem second_startup_run_still_trains :
    (startup exampleDataset).2 = true := rfl

/-- C4 amended: given byte-identical source datasets, running the startup
step twice performs training on both runs (the service has no model cache),
and both runs produce an identical vocabulary and label mapping, because
training derives them deterministically (sorted symptom set, sorted disease
classes, per-record class indices). -/
theorem startup_trains_every_run_deterministically
    (d1 d2 : List (List String × String)) (h : d1 = d2) :
    (startup d1).1.vocabulary = (startup d2).1.vocabulary ∧
      (startup d1).1.classes = (startup d2).1.classes ∧
      (startup d1).1.labels = (startup d2).1.labels ∧
      (startup d1).2 = true ∧ (startup d2).2 = true := by
  subst h
  exact ⟨rfl, rfl, rfl, rfl, rfl⟩

/-- Witness for C4 amended at the concrete two-record dataset. -/
theorem startup_trains_every_run_deterministically_witness :
    (startup exampleDataset).1.vocabulary = (startup exampleDataset).1.vocabulary ∧
      (startup exampleDataset).1.classes = (startup exampleDataset).1.classes ∧
      (startup exampleDataset).1.labels = (startup exampleDataset).1.labels ∧
      (startup exampleDataset).2 = true ∧ (startup exampleDataset).2 = true :=
  startup_trains_every_run_deterministically exampleDataset exampleDataset rfl

/-! ## Claim C7 -/

/-- C7 counterexample: on the Scenario B free text, with both `fever` and
`shortness_of_breath` in the vocabulary, the resolver output is exactly
`["fever"]` — `shortness_of_breath` is NOT included, because the whole
sentence is a single segment (it contains no clause delimiter) and the
synonym stage short-circuits the segment at its first match
(`"high temperature"` → `fever`). -/
theorem scenario_b_output_misses_breath_token :
    mapNaturalLanguageSymptoms scenarioBVocabulary (Sum.inl scenarioBText) =
      ["fever"] ∧
    "shortness_of_breath" ∉
      mapNaturalLanguageSymptoms scenarioBVocabulary (Sum.inl scenarioBText) := by
  constructor
  · decide
  · decide

/-- C7 amended: on the free-text input of Scenario B, the resolver output
includes the canonical token `fever` (via the synonym
`"high temperature"`), but not `shortness_of_breath`: the sentence forms one
segment and the synonym stage stops at the first matching canonical token. -/
theorem scenario_b_resolves_to_fever_only :
    "fever" ∈ mapNaturalLanguageSymptoms scenarioBVocabulary (Sum.inl scenarioBText) ∧
    "shortness_of_breath" ∉
      mapNaturalLanguageSymptoms scenarioBVocabulary (Sum.inl scenarioBText) := by
  constructor
  · decide
  · decide

/-! ## Claim C8 -/

/-- C8 counterexample: the substring stage does not pick the longest
overlap.  For the input token `"headachey"` and the vocabulary
`["ache", "headache"]`, both tokens satisfy the substring condition —
`"headache"` with overlap 8, `"ache"` with overlap 4 — yet the stage returns
`["ache"]`, the first match in list order, not the longest-overlap
candidate `"headache"`. -/
theorem substring_stage_not_longest_overlap :
    enhanceSymptomMatching ["headachey"] ["ache", "headache"] = ["ache"] ∧
      subStringOf "headache" "headachey" = true := by
  constructor
  · decide
  · decide

/-- C8 amended: for an input token that reaches the substring stage (it is
not in the vocabulary and appears in no synonym list), the stage accepts
the FIRST vocabulary token in list order that is a substring of the input or
contains it, and only for input tokens longer than 2 characters; there is no
longest-overlap selection or lexicographic tie-break. -/
theorem substring_stage_takes_first_match
    (available : List String) (symptom : String)
    (h1 : symptom ∉ available)
    (h2 : ∀ e ∈ headSymptomSynonyms, symptom ∉ e.2) :
    enhanceSymptomMatching [symptom] available =
      (match available.find?
          (fun avail => (subStringOf symptom avail || subStringOf avail symptom) &&
            decide (2 < symptom.length)) with
      | some avail => [avail]
      | none => []) := by
  unfold enhanceSymptomMatching
  simp only [List.foldl_cons, List.foldl_nil]
  rw [if_neg h1, headSynonymLookup_none h2]
  cases hfind : available.find?
      (fun avail => (subStringOf symptom avail || subStringOf avail symptom) &&
        decide (2 < symptom.length)) with
  | none => rfl
  | some avail => simp

/-- Witness for C8 amended at the counterexample input: `find?` selects
`"ache"`, the first match. -/
theorem substring_stage_takes_first_match_witness :
    enhanceSymptomMatching ["headachey"] ["ache", "headache"] =
      (match (["ache", "headache"]).find?
          (fun avail => (subStringOf "headachey" avail || subStringOf avail "headachey") &&
            decide (2 < ("headachey" : String).length)) with
      | some avail => [avail]
      | none => []) :=
  substring_stage_takes_first_match ["ache", "headache"] "headachey"
    (by decide) (by decide)

end SmartHealth
